import Mathlib

/-!
Shallow embedding of the Strudel Band audio-capture and Gemini Live
streaming layer (src/js/audio-capture.js, src/js/gemini-live.js), with
theorems checking the specification's claims against the code.

Float samples are modelled as rationals; JavaScript numeric primitives
(`Math.round`, `Int16Array` element coercion) are modelled explicitly.
-/

/-- JavaScript `Math.round`: round half toward positive infinity. -/
def jsRound (x : ℚ) : ℤ := ⌊x + 1/2⌋

/-- Truncation toward zero of a rational, the first step of the
JavaScript ToInt16 abstract operation applied on `Int16Array` element
assignment. -/
def truncQ (x : ℚ) : ℤ := if 0 ≤ x then ⌊x⌋ else ⌈x⌉

/-- Wrap an integer modulo 2^16 into the signed 16-bit range, the second
step of ToInt16. -/
def wrap16 (m : ℤ) : ℤ :=
  let n := m % 65536
  if n < 32768 then n else n - 65536

/-- JavaScript ToInt16 applied to a (rational-modelled) number:
truncate toward zero, then wrap modulo 2^16 interpreted signed. -/
def toInt16 (x : ℚ) : ℤ := wrap16 (truncQ x)

/-- Model of `Math.max(-1, Math.min(1, v))` from `AudioCapture.floatTo16BitPCM`. -/
def clampSample (v : ℚ) : ℚ := max (-1) (min 1 v)

/-- One element of `AudioCapture.floatTo16BitPCM`:
`int16Array[i] = s < 0 ? s * 0x8000 : s * 0x7FFF` after clamping,
with the `Int16Array` element assignment coercion made explicit. -/
def quantizeSample (v : ℚ) : ℤ :=
  let s := clampSample v
  toInt16 (if s < 0 then s * 32768 else s * 32767)

/-- Model of `AudioCapture.floatTo16BitPCM`: element-wise quantization of a float
frame to 16-bit signed integers. -/
def floatTo16BitPCM (xs : List ℚ) : List ℤ := xs.map quantizeSample

/-- Model of `AudioCapture.resample`: linear-interpolation resampling.
`ratio = fromSampleRate / toSampleRate`,
`newLength = Math.round(input.length / ratio)`, and each output index
`i` reads source position `i * ratio`, blending the floor sample and the
ceil sample (ceil clamped to the last valid index) by the fractional
part `t`.  Out-of-range reads (never hit for positive rates) are
modelled as 0. -/
def resample (input : List ℚ) (fromSampleRate toSampleRate : ℚ) : List ℚ :=
  let ratio := fromSampleRate / toSampleRate
  let newLength := (jsRound ((input.length : ℚ) / ratio)).toNat
  (List.range newLength).map (fun (i : ℕ) =>
    let srcIndex : ℚ := (i : ℚ) * ratio
    let srcIndexFloor : ℤ := ⌊srcIndex⌋
    let srcIndexCeil : ℤ := min (srcIndexFloor + 1) ((input.length : ℤ) - 1)
    let t : ℚ := srcIndex - (srcIndexFloor : ℚ)
    input.getD srcIndexFloor.toNat 0 * (1 - t) + input.getD srcIndexCeil.toNat 0 * t)

theorem jsRound_natCast (n : ℕ) : jsRound (n : ℚ) = n := by
  unfold jsRound
  rw [Int.floor_eq_iff]
  constructor
  · push_cast; linarith
  · push_cast; linarith

theorem resample_length_aux (input : List ℚ) (fIn fOut : ℚ) :
    (resample input fIn fOut).length
        = (jsRound ((input.length : ℚ) / (fIn / fOut))).toNat := by
  unfold resample
  rw [List.length_map, List.length_range]

theorem resample_getElem (input : List ℚ) (fIn fOut : ℚ) (n : ℕ)
    (h : n < (resample input fIn fOut).length) :
    (resample input fIn fOut)[n] =
      input.getD (⌊(n : ℚ) * (fIn / fOut)⌋).toNat 0
          * (1 - ((n : ℚ) * (fIn / fOut) - (⌊(n : ℚ) * (fIn / fOut)⌋ : ℚ)))
        + input.getD (min (⌊(n : ℚ) * (fIn / fOut)⌋ + 1) ((input.length : ℤ) - 1)).toNat 0
          * ((n : ℚ) * (fIn / fOut) - (⌊(n : ℚ) * (fIn / fOut)⌋ : ℚ)) := by
  unfold resample at h ⊢
  rw [List.getElem_map, List.getElem_range]

/-- C3: for an input frame of length `L` and positive rates, the output
of `resample` has length `round(L * targetRate / nativeRate)` exactly;
in particular an empty input frame yields an empty output. -/
theorem resample_length (input : List ℚ) (fIn fOut : ℚ)
    (hIn : 0 < fIn) (hOut : 0 < fOut) :
    (resample input fIn fOut).length
        = (jsRound ((input.length : ℚ) * fOut / fIn)).toNat ∧
    (input = [] → resample input fIn fOut = []) := by
  have hratio : (input.length : ℚ) / (fIn / fOut) = (input.length : ℚ) * fOut / fIn :=
    div_div_eq_mul_div _ _ _
  refine ⟨?_, ?_⟩
  · rw [resample_length_aux, hratio]
  · intro h
    subst h
    have h0 : jsRound ((([] : List ℚ).length : ℚ) / (fIn / fOut)) = 0 := by
      simp only [List.length_nil, Nat.cast_zero, zero_div]
      simpa using jsRound_natCast 0
    have hlen := resample_length_aux ([] : List ℚ) fIn fOut
    rw [h0] at hlen
    exact List.eq_nil_of_length_eq_zero (by simpa using hlen)

/-- Witness for `resample_length` at a concrete input: a 3-sample frame
resampled from 48000 Hz to 16000 Hz has round(3/3) = 1 sample. -/
theorem resample_length_witness :
    (resample [1, 0, -1] 48000 16000).length
        = (jsRound (((([1, 0, -1] : List ℚ).length : ℚ) * 16000 / 48000))).toNat ∧
    (([1, 0, -1] : List ℚ) = [] → resample [1, 0, -1] 48000 16000 = []) :=
  resample_length [1, 0, -1] 48000 16000 (by norm_num) (by norm_num)

/-- C8: when the two rates are equal (and positive), `resample` is the
identity: the interpolation parameter `t` is 0 at every output index and
the output equals the input sample-for-sample. -/
theorem resample_identity (input : List ℚ) (f : ℚ) (hf : 0 < f) :
    resample input f f = input := by
  have hr : f / f = 1 := div_self (ne_of_gt hf)
  apply List.ext_getElem
  · rw [resample_length_aux, hr, div_one, jsRound_natCast, Int.toNat_natCast]
  · intro n h1 h2
    rw [resample_getElem]
    rw [hr, mul_one, Int.floor_natCast, Int.cast_natCast, sub_self, mul_zero, add_zero,
      sub_zero, mul_one, Int.toNat_natCast, List.getD_eq_getElem _ _ h2]

/-- Witness for `resample_identity` at a concrete input. -/
theorem resample_identity_witness :
    resample [1, 1/2, 0, -1] 48000 48000 = [1, 1/2, 0, -1] :=
  resample_identity [1, 1/2, 0, -1] 48000 (by norm_num)

theorem ceilQ_neg32768 : ⌈(-32768 : ℚ)⌉ = -32768 := by
  rw [show (-32768 : ℚ) = ((-32768 : ℤ) : ℚ) by norm_num]
  exact Int.ceil_intCast _

theorem wrap16_eq_self (m : ℤ) (h1 : -32768 ≤ m) (h2 : m ≤ 32767) : wrap16 m = m := by
  simp only [wrap16]
  split <;> omega

theorem clampSample_mem (v : ℚ) : -1 ≤ clampSample v ∧ clampSample v ≤ 1 :=
  ⟨le_max_left _ _, max_le (by norm_num) (min_le_left _ _)⟩

theorem clampSample_eq_self (v : ℚ) (h1 : -1 ≤ v) (h2 : v ≤ 1) : clampSample v = v := by
  unfold clampSample
  rw [min_eq_right h2, max_eq_right h1]

theorem truncQ_scale_neg_bounds (s : ℚ) (h1 : -1 ≤ s) (h2 : s < 0) :
    -32768 ≤ truncQ (s * 32768) ∧ truncQ (s * 32768) ≤ 0 := by
  have hx1 : (-32768 : ℚ) ≤ s * 32768 := by nlinarith
  have hx2 : s * 32768 ≤ 0 := by nlinarith
  have hneg : ¬(0 ≤ s * 32768) ∨ s * 32768 = 0 := by
    rcases lt_or_eq_of_le hx2 with h | h
    · exact Or.inl (not_le.mpr h)
    · exact Or.inr h
  unfold truncQ
  split
  · constructor
    · have := Int.floor_le (s * 32768)
      have : (-32768 : ℚ) ≤ (⌊s * 32768⌋ : ℚ) ∨ True := Or.inr trivial
      refine Int.le_floor.mpr ?_
      exact_mod_cast hx1
    · have hfl : (⌊s * 32768⌋ : ℚ) ≤ s * 32768 := Int.floor_le _
      have : (⌊s * 32768⌋ : ℚ) ≤ 0 := le_trans hfl hx2
      exact_mod_cast this
  · constructor
    · have hc : s * 32768 ≤ (⌈s * 32768⌉ : ℚ) := Int.le_ceil _
      have : (-32768 : ℚ) ≤ (⌈s * 32768⌉ : ℚ) := le_trans hx1 hc
      exact_mod_cast this
    · exact Int.ceil_le.mpr (by exact_mod_cast hx2)

theorem truncQ_scale_nonneg_bounds (s : ℚ) (h1 : 0 ≤ s) (h2 : s ≤ 1) :
    0 ≤ truncQ (s * 32767) ∧ truncQ (s * 32767) ≤ 32767 := by
  have hx1 : (0 : ℚ) ≤ s * 32767 := by positivity
  have hx2 : s * 32767 ≤ 32767 := by nlinarith
  unfold truncQ
  rw [if_pos hx1]
  constructor
  · exact Int.floor_nonneg.mpr hx1
  · have hfl : (⌊s * 32767⌋ : ℚ) ≤ s * 32767 := Int.floor_le _
    have : (⌊s * 32767⌋ : ℚ) ≤ 32767 := le_trans hfl hx2
    exact_mod_cast this

theorem quantizeSample_range (v : ℚ) :
    -32768 ≤ quantizeSample v ∧ quantizeSample v ≤ 32767 := by
  simp only [quantizeSample, toInt16]
  obtain ⟨hc1, hc2⟩ := clampSample_mem v
  split
  · rename_i hneg
    obtain ⟨hb1, hb2⟩ := truncQ_scale_neg_bounds _ hc1 hneg
    rw [wrap16_eq_self _ hb1 (by omega)]
    exact ⟨hb1, by omega⟩
  · rename_i hpos
    obtain ⟨hb1, hb2⟩ := truncQ_scale_nonneg_bounds _ (not_lt.mp hpos) hc2
    rw [wrap16_eq_self _ (by omega) hb2]
    exact ⟨by omega, hb2⟩

/-- C2: quantization clamps to `[-1,1]` and scales by 32768 (negative)
or 32767 (non-negative); every produced 16-bit integer lies in
`[-32768, 32767]`, and `1.0 ↦ 32767`, `-1.0 ↦ -32768`, `0 ↦ 0`. -/
theorem floatTo16BitPCM_range_and_endpoints :
    (∀ (xs : List ℚ), ∀ y ∈ floatTo16BitPCM xs, -32768 ≤ y ∧ y ≤ 32767) ∧
    floatTo16BitPCM [1] = [32767] ∧
    floatTo16BitPCM [-1] = [-32768] ∧
    floatTo16BitPCM [0] = [0] := by
  refine ⟨?_, ?_, ?_, ?_⟩
  · intro xs y hy
    obtain ⟨v, _, rfl⟩ := List.mem_map.mp hy
    exact quantizeSample_range v
  · norm_num [floatTo16BitPCM, quantizeSample, clampSample, toInt16, truncQ, wrap16]
  · norm_num [floatTo16BitPCM, quantizeSample, clampSample, toInt16, truncQ, wrap16,
      ceilQ_neg32768]
  · norm_num [floatTo16BitPCM, quantizeSample, clampSample, toInt16, truncQ, wrap16]

/-- Witness for `floatTo16BitPCM_range_and_endpoints` at the concrete
sample 1.0, whose quantized value is 32767. -/
theorem floatTo16BitPCM_range_witness :
    -32768 ≤ (32767 : ℤ) ∧ (32767 : ℤ) ≤ 32767 :=
  floatTo16BitPCM_range_and_endpoints.1 [1] 32767
    (by norm_num [floatTo16BitPCM, quantizeSample, clampSample, toInt16, truncQ, wrap16])

/-- C10: the quantizer truncates toward zero (it does not round to
nearest): on `[0,1]` it produces `trunc(s * 32767)` and on `[-1,0)` it
produces `trunc(s * 32768)`; in particular 0.5 yields 16383, not 16384. -/
theorem quantize_truncates_toward_zero :
    (∀ s : ℚ, 0 ≤ s → s ≤ 1 → quantizeSample s = truncQ (s * 32767)) ∧
    (∀ s : ℚ, -1 ≤ s → s < 0 → quantizeSample s = truncQ (s * 32768)) ∧
    quantizeSample (1/2) = 16383 := by
  refine ⟨?_, ?_, ?_⟩
  · intro s h1 h2
    simp only [quantizeSample, toInt16]
    rw [clampSample_eq_self s (by linarith) h2, if_neg (not_lt.mpr h1)]
    obtain ⟨hb1, hb2⟩ := truncQ_scale_nonneg_bounds s h1 h2
    exact wrap16_eq_self _ (by omega) hb2
  · intro s h1 h2
    simp only [quantizeSample, toInt16]
    rw [clampSample_eq_self s h1 (by linarith), if_pos h2]
    obtain ⟨hb1, hb2⟩ := truncQ_scale_neg_bounds s h1 h2
    exact wrap16_eq_self _ hb1 (by omega)
  · norm_num [quantizeSample, clampSample, toInt16, truncQ, wrap16]

/-- Witness for `quantize_truncates_toward_zero` at the concrete sample
0.5. -/
theorem quantize_truncates_witness :
    quantizeSample (1/2) = truncQ ((1/2 : ℚ) * 32767) :=
  quantize_truncates_toward_zero.1 (1/2) (by norm_num) (by norm_num)

/-! ## Streaming session: `GeminiLive` (src/js/gemini-live.js) -/

/-- WebSocket ready states. -/
inductive ReadyState
  | connecting
  | opened
  | closing
  | closed
deriving DecidableEq

/-- Outbound wire envelopes built by `GeminiLive` (the JSON payloads of
`sendSetup`, `sendAudio` and `sendText`); each carries the one field the
claims can observe. -/
inductive OutMsg
  | setupMsg (systemInstruction : String)
  | realtimeAudio (base64Audio : String)
  | clientText (text : String)
deriving DecidableEq

/-- The underlying socket: its ready state and the payloads actually
transmitted on it, in order. -/
structure WS where
  readyState : ReadyState
  sent : List OutMsg
deriving DecidableEq

/-- State of one `GeminiLive` instance.  `onMessageAgent` models the
`onMessage` callback field: the only assignment in the repository is the
wrapper installed by `GeminiAgentManager.startListening`, which captures
an `agentId` and overwrites `msg.agent` with it before forwarding, so
the installed callback is represented by that captured agent id
(`none` = no callback installed).  `pendingPrompt` models the
`agentConfig` captured by the `connect` closure for use by the `onopen`
handler when it calls `sendSetup`. -/
structure GeminiLive where
  apiKey : String
  ws : Option WS
  isConnected : Bool
  messageQueue : List OutMsg
  currentAgent : Option String
  onMessageAgent : Option String
  pendingPrompt : Option String
deriving DecidableEq

/-- Observable side effects of the session operations: console warnings
and logs, and invocations of the registered response callback. -/
inductive Effect
  | warn (s : String)
  | logInfo (s : String)
  | logError (s : String)
  | response (agent : String) (text : String)
deriving DecidableEq

namespace GeminiLive

/-- Constructor `new GeminiLive(apiKey)`. -/
def create (apiKey : String) : GeminiLive :=
  { apiKey := apiKey, ws := none, isConnected := false, messageQueue := [],
    currentAgent := none, onMessageAgent := none, pendingPrompt := none }

/-- Model of `GeminiLive.send`: transmit immediately when the socket exists and
its ready state is OPEN; otherwise push the payload onto
`messageQueue`.  No code in the repository ever reads `messageQueue`
back. -/
def send (g : GeminiLive) (m : OutMsg) : GeminiLive :=
  match g.ws with
  | some w =>
      if w.readyState = ReadyState.opened then
        { g with ws := some { w with sent := w.sent ++ [m] } }
      else
        { g with messageQueue := g.messageQueue ++ [m] }
  | none => { g with messageQueue := g.messageQueue ++ [m] }

/-- The payloads transmitted so far on the session's socket. -/
def socketSent (g : GeminiLive) : List OutMsg :=
  match g.ws with
  | some w => w.sent
  | none => []

/-- First line of the default system instruction `sendSetup` falls back
to; the remainder of the literal is irrelevant to every claim. -/
def defaultPrompt : String :=
  "You are a DJ/producer AI that listens to live music and helps create patterns."

/-- Model of `GeminiLive.sendSetup`: build the setup envelope from the agent
config, or the default persona, and `send` it. -/
def sendSetup (g : GeminiLive) (agentPrompt : Option String) : GeminiLive :=
  g.send (OutMsg.setupMsg (agentPrompt.getD defaultPrompt))

/-- The three synchronous exits of `GeminiLive.connect`: already
connected (`return true`), missing api key (`return false`), or a fresh
socket opened with the promise still pending. -/
inductive ConnectOutcome
  | alreadyConnected
  | noApiKey
  | pending
deriving DecidableEq

/-- Model of `GeminiLive.connect` (synchronous part): no-op when already
connected; fail when the api key is empty; otherwise construct a fresh
WebSocket in CONNECTING state.  The `onopen` transition is
`openEvent`. -/
def connect (g : GeminiLive) (agentPrompt : Option String) :
    GeminiLive × ConnectOutcome :=
  if g.isConnected then (g, ConnectOutcome.alreadyConnected)
  else if g.apiKey = "" then (g, ConnectOutcome.noApiKey)
  else
    ({ g with
       ws := some { readyState := ReadyState.connecting, sent := [] },
       pendingPrompt := agentPrompt },
     ConnectOutcome.pending)

/-- The socket's `onopen` handler: the host marks the socket OPEN, then
the handler sets `isConnected := true` and sends the setup handshake
(resolving the pending `connect` promise).  `messageQueue` is not
touched: no flush of queued messages exists anywhere in the code. -/
def openEvent (g : GeminiLive) : GeminiLive :=
  match g.ws with
  | none => g
  | some w =>
      let g1 : GeminiLive :=
        { g with
          ws := some { w with readyState := ReadyState.opened },
          isConnected := true }
      g1.sendSetup g1.pendingPrompt

/-- The socket's `onclose` handler. -/
def closeEvent (g : GeminiLive) : GeminiLive :=
  { g with isConnected := false }

/-- Model of `GeminiLive.sendAudio`: when not connected, warn and return without
building or buffering anything; otherwise wrap the frame in the
realtime-input envelope and `send` it. -/
def sendAudio (g : GeminiLive) (base64Audio : String) : GeminiLive × List Effect :=
  if g.isConnected = false then
    (g, [Effect.warn "Not connected, queuing audio"])
  else
    (g.send (OutMsg.realtimeAudio base64Audio), [])

/-- Model of `GeminiLive.sendText`: when not connected, warn and return without
building or buffering anything; otherwise wrap the text in the
client-content envelope and `send` it. -/
def sendText (g : GeminiLive) (text : String) : GeminiLive × List Effect :=
  if g.isConnected = false then
    (g, [Effect.warn "Not connected"])
  else
    (g.send (OutMsg.clientText text), [Effect.logInfo ("Sent text: " ++ text)])

/-- Model of `GeminiLive.disconnect`: close and discard the socket, if any, and
clear the connected flag. -/
def disconnect (g : GeminiLive) : GeminiLive :=
  { g with ws := none, isConnected := false }

/-- The `connected` getter: connected flag and socket ready to send. -/
def connected (g : GeminiLive) : Bool :=
  g.isConnected && (match g.ws with
    | some w => decide (w.readyState = ReadyState.opened)
    | none => false)

end GeminiLive

/-- One part of an inbound model turn. -/
structure TurnPart where
  text : Option String
deriving DecidableEq

/-- An inbound `modelTurn`. -/
structure ModelTurn where
  parts : List TurnPart
deriving DecidableEq

/-- An inbound `serverContent` envelope. -/
structure ServerContent where
  turnComplete : Bool
  modelTurn : Option ModelTurn
deriving DecidableEq

/-- A parsed inbound message. -/
structure InboundMsg where
  serverContent : Option ServerContent
  setupComplete : Bool
deriving DecidableEq

namespace GeminiLive

/-- Model of `GeminiLive.handleMessage`: the whole body sits inside a try/catch,
so a payload on which `JSON.parse` throws (modelled as `none`) is logged
as an error and dispatch returns normally.  For a parsed message a
`turnComplete` flag is only logged; each text part of a
`serverContent.modelTurn` is logged and, when a callback is installed,
delivered to it (the installed wrapper attributes the message to its
captured agent id). -/
def handleMessage (g : GeminiLive) (raw : Option InboundMsg) : List Effect :=
  match raw with
  | none => [Effect.logError "Failed to parse message"]
  | some msg =>
      (match msg.serverContent with
       | none => []
       | some c =>
           (if c.turnComplete then [Effect.logInfo "Turn complete"] else []) ++
           (match c.modelTurn with
            | none => []
            | some mt =>
                mt.parts.foldr (fun p acc =>
                  match p.text with
                  | some t =>
                      Effect.logInfo ("Response: " ++ t) ::
                        ((match g.onMessageAgent with
                          | some a => [Effect.response a t]
                          | none => []) ++ acc)
                  | none => acc) [])) ++
      (if msg.setupComplete then [Effect.logInfo "Setup complete"] else [])

/-- Inbound dispatch over a sequence of raw socket messages, in
delivery order: each message event invokes `handleMessage` once. -/
def dispatchAll (g : GeminiLive) (raws : List (Option InboundMsg)) : List Effect :=
  (raws.map g.handleMessage).flatten

end GeminiLive

/-! ## Session multiplexer: `GeminiAgentManager` -/

/-- The agent ids present in `CONFIG.AGENTS` (config.js). -/
def AGENT_IDS : List String := ["drums", "bass", "lead", "pads", "fx"]

/-- The listening persona `startListening` passes to `connect`: the
agent's `systemPrompt` plus the live-jam suffix.  Only its dependence on
the agent id is observable to any claim, so the per-agent prompt bodies
are abbreviated to a tag. -/
def listeningPrompt (agentId : String) : String :=
  "persona " ++ agentId ++
    " You are listening to a live jam session. React musically to what you hear."

/-- Model of `Map.set` on an association list: replace in place when the key is
present, else append. -/
def setAssoc (l : List (String × GeminiLive)) (k : String) (v : GeminiLive) :
    List (String × GeminiLive) :=
  if l.any (fun p => p.1 = k) then
    l.map (fun p => if p.1 = k then (k, v) else p)
  else l ++ [(k, v)]

/-- The two assignments `session.currentAgent = agentId` and
`session.onMessage = wrapper(agentId)` performed by `startListening`
before connecting. -/
def tagListener (g : GeminiLive) (agentId : String) : GeminiLive :=
  { g with currentAgent := some agentId, onMessageAgent := some agentId }

/-- State of the `GeminiAgentManager`: the per-agent session map, the
optional shared session, and the (constructor-fixed, default `true`)
shared-session flag. -/
structure GeminiAgentManager where
  apiKey : String
  sessions : List (String × GeminiLive)
  sharedSession : Option GeminiLive
  useSharedSession : Bool
deriving DecidableEq

namespace GeminiAgentManager

/-- Constructor `new GeminiAgentManager(apiKey)`. -/
def create (apiKey : String) : GeminiAgentManager :=
  { apiKey := apiKey, sessions := [], sharedSession := none, useSharedSession := true }

/-- Model of `GeminiAgentManager.init`: fail (false) when no api key is
configured; in shared mode eagerly construct the still-unconnected
shared session. -/
def init (m : GeminiAgentManager) : GeminiAgentManager × Bool :=
  if m.apiKey = "" then (m, false)
  else if m.useSharedSession then
    ({ m with sharedSession := some (GeminiLive.create m.apiKey) }, true)
  else (m, true)

/-- Model of `GeminiAgentManager.startListening`: fail without an api key or for
an agent id absent from `CONFIG.AGENTS`; otherwise tag the shared (or a
fresh per-agent) session with the agent id as current speaker, install
the response wrapper capturing that id, and call `connect` with the
agent's listening persona.  The shared-mode branch requires `init` to
have run (in the code a missing `sharedSession` would fault on the
`session.currentAgent` assignment; every claim is stated with
`sharedSession` present, matching the code's usage).  The boolean
mirrors the `return true` of the non-throwing path; awaiting the
`connect` promise resolution is the separate `openEvent` step. -/
def startListening (m : GeminiAgentManager) (agentId : String) :
    GeminiAgentManager × Bool :=
  if m.apiKey = "" then (m, false)
  else if (AGENT_IDS.contains agentId) = false then (m, false)
  else if m.useSharedSession then
    match m.sharedSession with
    | none => (m, false)
    | some s =>
        let s2 := ((tagListener s agentId).connect (some (listeningPrompt agentId))).1
        ({ m with sharedSession := some s2 }, true)
  else
    let s2 := ((tagListener (GeminiLive.create m.apiKey) agentId).connect
      (some (listeningPrompt agentId))).1
    ({ m with sessions := setAssoc m.sessions agentId s2 }, true)

/-- Model of `GeminiAgentManager.stopAll`: disconnect the shared session when one
exists, disconnect every per-agent session, and clear the session map
(the just-disconnected per-agent sessions are dropped with it). -/
def stopAll (m : GeminiAgentManager) : GeminiAgentManager :=
  { m with
    sharedSession := m.sharedSession.map GeminiLive.disconnect,
    sessions := [] }

end GeminiAgentManager

/-! ## Capture pipeline: `AudioCapture.startCapture` -/

/-- Little-endian serialization of the `Int16Array` buffer as seen
through `Uint8Array`: two bytes per sample, two's-complement low byte
first. -/
def int16LEBytes (xs : List ℤ) : List ℕ :=
  xs.foldr (fun v acc => ((v % 65536).toNat % 256) :: ((v % 65536).toNat / 256) :: acc) []

/-- The base64 alphabet used by `btoa`. -/
def base64Alphabet : List Char :=
  "ABCDEFGHIJKLMNOPQRSTUVWXYZabcdefghijklmnopqrstuvwxyz0123456789+/".toList

/-- Character of the base64 alphabet at an index (indices stay below 64
for byte inputs). -/
def b64char (n : ℕ) : Char := base64Alphabet.getD n 'A'

/-- Model of `btoa`: standard base64 with padding over a byte sequence, three
bytes to four characters. -/
def base64Encode : List ℕ → List Char
  | [] => []
  | [b0] => [b64char (b0 / 4), b64char (b0 % 4 * 16), '=', '=']
  | [b0, b1] => [b64char (b0 / 4), b64char (b0 % 4 * 16 + b1 / 16), b64char (b1 % 16 * 4), '=']
  | b0 :: b1 :: b2 :: rest =>
      b64char (b0 / 4) :: b64char (b0 % 4 * 16 + b1 / 16) ::
        b64char (b1 % 16 * 4 + b2 / 64) :: b64char (b2 % 64) :: base64Encode rest

/-- Model of `AudioCapture.arrayBufferToBase64` applied to a PCM buffer. -/
def arrayBufferToBase64 (pcm : List ℤ) : String :=
  String.mk (base64Encode (int16LEBytes pcm))

/-- Capture configuration fixed when `startCapture` installs the
`onaudioprocess` handler: the capturing flag, the audio context's native
rate, and the configured target rate. -/
structure AudioCaptureState where
  isCapturing : Bool
  nativeRate : ℚ
  targetRate : ℚ
deriving DecidableEq

/-- The per-buffer body of `onaudioprocess`: resample the native buffer
to the target rate, quantize to 16-bit PCM, base64-encode. -/
def encodeFrame (cap : AudioCaptureState) (input : List ℚ) : String :=
  arrayBufferToBase64 (floatTo16BitPCM (resample input cap.nativeRate cap.targetRate))

/-- One invocation of the `onaudioprocess` handler with callback `cb`
(the `onAudioData` field).  The callback may throw, modelled as
`Except.error`; the source wraps the invocation in no try/catch, so a
callback exception propagates out of the handler invocation. -/
def audioProcessEvent (cap : AudioCaptureState)
    (cb : String → Except String Unit) (input : List ℚ) : Except String Unit :=
  if cap.isCapturing = false then Except.ok ()
  else cb (encodeFrame cap input)

/-- The audio subsystem dispatches each buffer-ready event as its own
independent handler invocation; `cb n` is the callback's behavior on the
n-th frame, and the list collects each invocation's outcome. -/
def runCaptureEvents (cap : AudioCaptureState)
    (cb : ℕ → String → Except String Unit) (frames : List (List ℚ)) :
    List (Except String Unit) :=
  (List.range frames.length).map fun n => audioProcessEvent cap (cb n) (frames.getD n [])

/-- An active capture configuration at the repository's rates. -/
def captureOn : AudioCaptureState :=
  { isCapturing := true, nativeRate := 48000, targetRate := 16000 }

/-- A callback that throws on frame 0 and returns normally afterwards. -/
def throwOnFirst : ℕ → String → Except String Unit :=
  fun n _ => if n = 0 then Except.error "boom" else Except.ok ()

/-! ## Claim theorems: transport and capture -/

/-- C4: an audio frame passed to `sendAudio` while the transport is not
yet Open (`isConnected = false`, which holds in every state before the
`onopen` transition) is dropped with a single logged warning: the
session state is unchanged — nothing is transmitted on the socket and
nothing is buffered for later — and the call returns normally. -/
theorem sendAudio_not_open_drops (g : GeminiLive) (audio : String)
    (h : g.isConnected = false) :
    (g.sendAudio audio).1 = g ∧
    (g.sendAudio audio).1.socketSent = g.socketSent ∧
    (g.sendAudio audio).1.messageQueue = g.messageQueue ∧
    (g.sendAudio audio).2 = [Effect.warn "Not connected, queuing audio"] := by
  simp [GeminiLive.sendAudio, h]

/-- Witness for `sendAudio_not_open_drops` on a fresh session. -/
theorem sendAudio_not_open_drops_witness :
    ((GeminiLive.create "key").sendAudio "AAAA").1 = GeminiLive.create "key" ∧
    ((GeminiLive.create "key").sendAudio "AAAA").1.socketSent
        = (GeminiLive.create "key").socketSent ∧
    ((GeminiLive.create "key").sendAudio "AAAA").1.messageQueue
        = (GeminiLive.create "key").messageQueue ∧
    ((GeminiLive.create "key").sendAudio "AAAA").2
        = [Effect.warn "Not connected, queuing audio"] :=
  sendAudio_not_open_drops (GeminiLive.create "key") "AAAA" rfl

/-- A fresh session on which `connect` has been called: socket
CONNECTING, transport not yet Open. -/
def pendingSession : GeminiLive :=
  ((GeminiLive.create "key").connect (some "persona")).1

/-- C1 (code bug): a text passed to `sendText` while the transport is
not yet Open is NOT enqueued — the call warns and drops it, leaving the
state (including `messageQueue`) unchanged — and once the socket opens
the only payload ever transmitted is the setup handshake: the text is
never sent, since no code flushes the queue declared "for when
connection is pending". -/
theorem sendText_before_open_dropped :
    (pendingSession.sendText "hello").2 = [Effect.warn "Not connected"] ∧
    (pendingSession.sendText "hello").1 = pendingSession ∧
    pendingSession.messageQueue = [] ∧
    ((pendingSession.sendText "hello").1.openEvent).socketSent
        = [OutMsg.setupMsg "persona"] ∧
    ((pendingSession.sendText "hello").1.openEvent).messageQueue = [] := by
  refine ⟨rfl, rfl, rfl, rfl, rfl⟩

/-- C6: inbound dispatch never throws out of the dispatch path: a raw
payload on which parsing fails (modelled `none`) contributes exactly one
logged error, and dispatch continues with the following messages exactly
as it would have without the malformed payload. -/
theorem handleMessage_malformed_logged_continues (g : GeminiLive)
    (rest : List (Option InboundMsg)) :
    g.dispatchAll (none :: rest)
        = Effect.logError "Failed to parse message" :: g.dispatchAll rest := by
  simp [GeminiLive.dispatchAll, GeminiLive.handleMessage]

/-- C5 counterexample: with capture active, a callback that throws makes
the `onaudioprocess` handler invocation itself propagate the exception —
the source has no try/catch isolating the callback, so the exception
escapes the capture path. -/
theorem capture_callback_exception_escapes :
    audioProcessEvent captureOn (fun _ => Except.error "boom") [0]
        = Except.error "boom" := rfl

/-- C5 (amended): the callback invocation is not isolated — its
exception escapes that frame's handler — but each frame is dispatched by
an independent handler invocation, so a callback exception at frame `n`
does not prevent frame `n + 1` from being resampled, encoded and
dispatched: the `(n+1)`-th dispatch outcome is exactly the stand-alone
processing of frame `n + 1`. -/
theorem capture_next_frame_processed (cap : AudioCaptureState)
    (cb : ℕ → String → Except String Unit) (frames : List (List ℚ))
    (n : ℕ) (e : String)
    (hthrow : audioProcessEvent cap (cb n) (frames.getD n []) = Except.error e)
    (hn : n + 1 < frames.length) :
    (runCaptureEvents cap cb frames).getD (n + 1) (Except.ok ())
        = audioProcessEvent cap (cb (n + 1)) (frames.getD (n + 1) []) := by
  unfold runCaptureEvents
  rw [List.getD_eq_getElem _ _ (by simpa using hn), List.getElem_map, List.getElem_range]

/-- Witness for `capture_next_frame_processed`: the callback throws on
frame 0, and frame 1 is still processed and dispatched. -/
theorem capture_next_frame_processed_witness :
    (runCaptureEvents captureOn throwOnFirst [[0], [0]]).getD 1 (Except.ok ())
        = audioProcessEvent captureOn (throwOnFirst 1) ([[0], [0]].getD 1 []) :=
  capture_next_frame_processed captureOn throwOnFirst [[0], [0]] 0 "boom" rfl
    (by norm_num)

/-- C9: `stopAll` is a total function (it can raise no error), it is
idempotent, and after each call the per-agent session map is empty and
any remaining shared transport is disconnected with its socket
discarded. -/
theorem stopAll_idempotent (m : GeminiAgentManager) :
    m.stopAll.stopAll = m.stopAll ∧
    m.stopAll.sessions = [] ∧
    (m.stopAll.sharedSession.all fun s => !s.connected && s.ws.isNone) = true := by
  refine ⟨?_, rfl, ?_⟩
  · cases h : m.sharedSession <;>
      simp [GeminiAgentManager.stopAll, GeminiLive.disconnect, h]
  · cases h : m.sharedSession <;>
      simp [GeminiAgentManager.stopAll, GeminiLive.disconnect, GeminiLive.connected, h]

theorem connect_preserves_callbacks (g : GeminiLive) (p : Option String) :
    ((g.connect p).1.currentAgent = g.currentAgent) ∧
    ((g.connect p).1.onMessageAgent = g.onMessageAgent) := by
  unfold GeminiLive.connect
  split_ifs <;> simp

/-- An inbound `serverContent` carrying one model-turn text part. -/
def serverContentOneText (t : String) : ServerContent :=
  { turnComplete := false, modelTurn := some { parts := [{ text := some t }] } }

/-- An inbound message carrying one model-turn text part. -/
def oneTextTurn (t : String) : InboundMsg :=
  { serverContent := some (serverContentOneText t), setupComplete := false }

theorem startListening_shared_step (m : GeminiAgentManager) (s : GeminiLive) (a : String)
    (hmode : m.useSharedSession = true) (hshared : m.sharedSession = some s)
    (hkey : ¬(m.apiKey = "")) (ha : AGENT_IDS.contains a = true) :
    (m.startListening a).1
      = { m with
          sharedSession :=
            some (((tagListener s a).connect (some (listeningPrompt a))).1) } := by
  unfold GeminiAgentManager.startListening
  rw [if_neg hkey, if_neg (by rw [ha]; simp), if_pos hmode, hshared]

/-- C7: in shared-session mode, after `startListening` for two listeners
on the one shared transport, a single inbound server-content model-turn
with a text part invokes exactly the response callback of the listener
most recently tagged as current speaker, attributed to that listener's
id. -/
theorem shared_mode_attribution (m : GeminiAgentManager) (s : GeminiLive)
    (a1 a2 t : String)
    (hmode : m.useSharedSession = true)
    (hshared : m.sharedSession = some s)
    (hkey : ¬(m.apiKey = ""))
    (h1 : AGENT_IDS.contains a1 = true)
    (h2 : AGENT_IDS.contains a2 = true) :
    ∃ s2 : GeminiLive,
      (((m.startListening a1).1.startListening a2).1.sharedSession = some s2) ∧
      s2.currentAgent = some a2 ∧
      s2.onMessageAgent = some a2 ∧
      s2.handleMessage (some (oneTextTurn t))
          = [Effect.logInfo ("Response: " ++ t), Effect.response a2 t] := by
  have e1 := startListening_shared_step m s a1 hmode hshared hkey h1
  rw [e1]
  have e2 := startListening_shared_step
    { m with
      sharedSession := some (((tagListener s a1).connect (some (listeningPrompt a1))).1) }
    (((tagListener s a1).connect (some (listeningPrompt a1))).1) a2 hmode rfl hkey h2
  rw [e2]
  refine ⟨((tagListener (((tagListener s a1).connect (some (listeningPrompt a1))).1) a2).connect
      (some (listeningPrompt a2))).1, rfl, ?_, ?_, ?_⟩
  · exact (connect_preserves_callbacks
      (tagListener (((tagListener s a1).connect (some (listeningPrompt a1))).1) a2)
      (some (listeningPrompt a2))).1
  · exact (connect_preserves_callbacks
      (tagListener (((tagListener s a1).connect (some (listeningPrompt a1))).1) a2)
      (some (listeningPrompt a2))).2
  · have ho := (connect_preserves_callbacks
      (tagListener (((tagListener s a1).connect (some (listeningPrompt a1))).1) a2)
      (some (listeningPrompt a2))).2
    have ho2 : ((tagListener (((tagListener s a1).connect (some (listeningPrompt a1))).1)
        a2).connect (some (listeningPrompt a2))).1.onMessageAgent = some a2 :=
      ho.trans rfl
    simp [GeminiLive.handleMessage, oneTextTurn, serverContentOneText, ho2]

/-- The manager after `init` in shared-session mode. -/
def sharedManager : GeminiAgentManager := ((GeminiAgentManager.create "key").init).1

/-- Witness for `shared_mode_attribution`: listeners drums then bass;
the inbound turn is delivered to bass, the most recently tagged. -/
theorem shared_mode_attribution_witness :
    ∃ s2 : GeminiLive,
      ((sharedManager.startListening "drums").1.startListening "bass").1.sharedSession
          = some s2 ∧
      s2.currentAgent = some "bass" ∧
      s2.onMessageAgent = some "bass" ∧
      s2.handleMessage (some (oneTextTurn "hi"))
          = [Effect.logInfo ("Response: " ++ "hi"), Effect.response "bass" "hi"] :=
  shared_mode_attribution sharedManager (GeminiLive.create "key") "drums" "bass" "hi"
    rfl rfl (by decide) rfl rfl
